import Mathlib

/-!
Verification of the Twilio audio interface adapter
(`twilio_audio_interface.py`): a shallow embedding of its session state,
base64 codec, outbound send tasks and inbound message demultiplexer,
together with theorems settling the specified properties.
-/

set_option maxHeartbeats 1000000

/-- JSON values as they occur in the adapter's envelopes: strings and
objects (the only two shapes the adapter ever produces or inspects). -/
inductive JsonValue where
  | str : String → JsonValue
  | obj : List (String × JsonValue) → JsonValue

/-- Python truthiness of a JSON value, as used by the guard on the
stored stream id: a string is truthy when non-empty, a dict when
non-empty. -/
def JsonValue.truthy : JsonValue → Bool
  | JsonValue.str s => decide (s ≠ "")
  | JsonValue.obj [] => false
  | JsonValue.obj (_ :: _) => true

/-- Python exceptions that the adapter's code paths can raise. -/
inductive PyError where
  | keyError : String → PyError
  | typeError : PyError
  | binasciiError : String → PyError
  | webSocketDisconnect : PyError
  | runtimeErr : PyError
  | otherFault : PyError
deriving DecidableEq

/-- Python `dict.get(k)` on a JSON object given as an association list:
the value when the key is present, otherwise none. -/
def dictGet (kvs : List (String × JsonValue)) (k : String) : Option JsonValue :=
  match kvs.find? (fun p => p.1 == k) with
  | some p => some p.2
  | none => none

/-- Python `d[k]` on a dict: the value, or a KeyError when absent. -/
def dictIndex (kvs : List (String × JsonValue)) (k : String) :
    Except PyError JsonValue :=
  match kvs.find? (fun p => p.1 == k) with
  | some p => Except.ok p.2
  | none => Except.error (PyError.keyError k)

/-- Python `v[k]` where `v` is an arbitrary JSON value: a dict lookup on
an object, a TypeError on a string (string indices must be integers). -/
def pySubscript (v : JsonValue) (k : String) : Except PyError JsonValue :=
  match v with
  | JsonValue.obj kvs => dictIndex kvs k
  | JsonValue.str _ => Except.error PyError.typeError

/-- JSON string escaping for the characters that need it (quote and
backslash); the adapter's payloads are plain base64 text so control
characters never occur. -/
def jsonEscapeChar (c : Char) : List Char :=
  if c = '"' then ['\\', '"']
  else if c = '\\' then ['\\', '\\']
  else [c]

/-- Escape a whole string for JSON serialization. -/
def jsonEscape (s : String) : String :=
  String.mk (s.data.map jsonEscapeChar).flatten

mutual

/-- Serialization of a JSON value the way Python `json.dumps` does it
with default separators (a space after each colon and comma, insertion
order preserved). -/
def jsonDumps : JsonValue → String
  | JsonValue.str s => "\"" ++ jsonEscape s ++ "\""
  | JsonValue.obj kvs => "\x7b" ++ jsonDumpsPairs kvs ++ "\x7d"

/-- Serialization of the key/value pairs of a JSON object, separated by
a comma and a space. -/
def jsonDumpsPairs : List (String × JsonValue) → String
  | [] => ""
  | [(k, v)] => "\"" ++ jsonEscape k ++ "\": " ++ jsonDumps v
  | (k, v) :: p :: rest =>
      "\"" ++ jsonEscape k ++ "\": " ++ jsonDumps v ++ ", " ++
        jsonDumpsPairs (p :: rest)

end

/-- The character of the standard base64 alphabet at index v (0..63). -/
def b64char (v : Nat) : Char :=
  if v < 26 then Char.ofNat (65 + v)
  else if v < 52 then Char.ofNat (97 + (v - 26))
  else if v < 62 then Char.ofNat (48 + (v - 52))
  else if v = 62 then '+'
  else '/'

/-- The index of a character in the standard base64 alphabet, none for
characters outside it. -/
def b64index (c : Char) : Option Nat :=
  if 'A' ≤ c ∧ c ≤ 'Z' then some (c.toNat - 65)
  else if 'a' ≤ c ∧ c ≤ 'z' then some (c.toNat - 97 + 26)
  else if '0' ≤ c ∧ c ≤ '9' then some (c.toNat - 48 + 52)
  else if c = '+' then some 62
  else if c = '/' then some 63
  else none

/-- Base64 encoding of a byte list, three bytes to four characters with
= padding, as `base64.b64encode` produces it. -/
def b64encodeBytes : List Nat → List Char
  | [] => []
  | [b0] => [b64char (b0 / 4), b64char (b0 % 4 * 16), '=', '=']
  | [b0, b1] =>
      [b64char (b0 / 4), b64char (b0 % 4 * 16 + b1 / 16),
       b64char (b1 % 16 * 4), '=']
  | b0 :: b1 :: b2 :: rest =>
      b64char (b0 / 4) :: b64char (b0 % 4 * 16 + b1 / 16) ::
      b64char (b1 % 16 * 4 + b2 / 64) :: b64char (b2 % 64) ::
      b64encodeBytes rest

/-- Python `base64.b64encode(bytes).decode("utf-8")`. -/
def b64encode (bs : List Nat) : String := String.mk (b64encodeBytes bs)

/-- The state machine of CPython `binascii.a2b_base64` in its default
lenient mode: characters outside the alphabet are skipped; a padding
character only counts once two data characters of the current quad have
been seen, and enough padding ends decoding successfully; at end of
input a quad position of 1 is an invalid length and a quad position of
2 or 3 is incorrect padding. Arguments: remaining characters, quad
position, pending bits, consecutive pad count, output bytes. -/
def b64decodeAux : List Char → Nat → Nat → Nat → List Nat →
    Except String (List Nat)
  | [], quadPos, _, _, out =>
      if quadPos = 0 then Except.ok out
      else if quadPos = 1 then
        Except.error ("Invalid base64-encoded string")
      else Except.error ("Incorrect padding")
  | c :: rest, quadPos, leftchar, pads, out =>
      if c = '=' then
        if 2 ≤ quadPos then
          if 4 ≤ quadPos + (pads + 1) then Except.ok out
          else b64decodeAux rest quadPos leftchar (pads + 1) out
        else b64decodeAux rest quadPos leftchar pads out
      else
        match b64index c with
        | none => b64decodeAux rest quadPos leftchar pads out
        | some v =>
          match quadPos with
          | 0 => b64decodeAux rest 1 v 0 out
          | 1 => b64decodeAux rest 2 (v % 16) 0 (out ++ [leftchar * 4 + v / 16])
          | 2 => b64decodeAux rest 3 (v % 4) 0 (out ++ [leftchar * 16 + v / 4])
          | _ => b64decodeAux rest 0 0 0 (out ++ [leftchar * 64 + v])

/-- Python `base64.b64decode(text)` with its default lenient
validation. -/
def b64decode (s : String) : Except String (List Nat) :=
  b64decodeAux s.data 0 0 0 []

/-- The adapter's mutable state: the registered inbound consumer
(identified by a number, none when unregistered) and the stream id
stored from the last start event (the raw JSON value the handler
assigned, none initially and after stop). -/
structure TwilioAudioInterface where
  input_callback : Option Nat
  stream_sid : Option JsonValue

/-- The state a freshly constructed adapter starts in: no consumer, no
stream id. -/
def TwilioAudioInterface.init : TwilioAudioInterface :=
  { input_callback := none, stream_sid := none }

/-- Truthiness of the stored stream id, as the guard at the head of
both send tasks evaluates it. -/
def TwilioAudioInterface.sidTruthy (st : TwilioAudioInterface) : Bool :=
  match st.stream_sid with
  | none => false
  | some v => v.truthy

/-- The start method: stores the inbound consumer, overwriting any
prior registration. -/
def TwilioAudioInterface.start (st : TwilioAudioInterface) (cb : Nat) :
    TwilioAudioInterface :=
  { st with input_callback := some cb }

/-- The stop method: clears both the consumer and the stream id. -/
def TwilioAudioInterface.stop (_st : TwilioAudioInterface) :
    TwilioAudioInterface :=
  { input_callback := none, stream_sid := none }

/-- A unit of work handed to the transport's scheduling context by
output or interrupt. -/
inductive ScheduledTask where
  | sendAudio : List Nat → ScheduledTask
  | sendClear : ScheduledTask
deriving DecidableEq

/-- The output method: schedules the audio send coroutine onto the
event loop and returns; the state is untouched and no wire frame is
produced at call time. -/
def TwilioAudioInterface.output (st : TwilioAudioInterface)
    (audio : List Nat) : TwilioAudioInterface × List ScheduledTask :=
  (st, [ScheduledTask.sendAudio audio])

/-- The interrupt method: schedules the clear send coroutine onto the
event loop and returns. -/
def TwilioAudioInterface.interrupt (st : TwilioAudioInterface) :
    TwilioAudioInterface × List ScheduledTask :=
  (st, [ScheduledTask.sendClear])

/-- The outcome of one attempted websocket send, covering the failure
classes a send can raise. -/
inductive SendOutcome where
  | success
  | disconnect
  | runtimeFault
  | otherFault
deriving DecidableEq

/-- The transport's send primitive: on success the serialized frame
reaches the wire; otherwise the corresponding exception is raised. -/
def websocket_send_text (outcome : SendOutcome) (frame : String) :
    Except PyError (List String) :=
  match outcome with
  | SendOutcome.success => Except.ok [frame]
  | SendOutcome.disconnect => Except.error PyError.webSocketDisconnect
  | SendOutcome.runtimeFault => Except.error PyError.runtimeErr
  | SendOutcome.otherFault => Except.error PyError.otherFault

/-- The audio send task: if a truthy stream id is present it encodes
the audio, builds the media envelope, and sends it when the transport
is connected (skipping the send otherwise); every exception of the
attempt is caught by the except clauses (WebSocketDisconnect,
RuntimeError, and the catch-all Exception) and only logged. The result
lists the frames that reached the wire. -/
def TwilioAudioInterface.send_audio_to_twilio (st : TwilioAudioInterface)
    (connected : Bool) (outcome : SendOutcome) (audio : List Nat) :
    Except PyError (List String) :=
  match st.stream_sid with
  | some sid =>
    if sid.truthy then
      let audio_payload := b64encode audio
      let audio_delta := JsonValue.obj
        [("event", JsonValue.str ("media")), ("streamSid", sid),
         ("media", JsonValue.obj ([("payload", JsonValue.str audio_payload)]))]
      let attempt : Except PyError (List String) :=
        if connected then websocket_send_text outcome (jsonDumps audio_delta)
        else Except.ok []
      match attempt with
      | Except.ok frames => Except.ok frames
      | Except.error _ => Except.ok []
    else Except.ok []
  | none => Except.ok []

/-- The clear send task: if a truthy stream id is present it builds the
clear envelope and sends it when the transport is connected; only
WebSocketDisconnect and RuntimeError are caught — any other exception
of the attempt leaves the task uncaught. -/
def TwilioAudioInterface.send_clear_message_to_twilio
    (st : TwilioAudioInterface) (connected : Bool) (outcome : SendOutcome) :
    Except PyError (List String) :=
  match st.stream_sid with
  | some sid =>
    if sid.truthy then
      let clear_message := JsonValue.obj
        [("event", JsonValue.str ("clear")), ("streamSid", sid)]
      let attempt : Except PyError (List String) :=
        if connected then websocket_send_text outcome (jsonDumps clear_message)
        else Except.ok []
      match attempt with
      | Except.ok frames => Except.ok frames
      | Except.error PyError.webSocketDisconnect => Except.ok []
      | Except.error PyError.runtimeErr => Except.ok []
      | Except.error e => Except.error e
    else Except.ok []
  | none => Except.ok []

/-- Running one scheduled task against the transport. -/
def runTask (st : TwilioAudioInterface) (connected : Bool)
    (outcome : SendOutcome) : ScheduledTask → Except PyError (List String)
  | ScheduledTask.sendAudio audio =>
      st.send_audio_to_twilio connected outcome audio
  | ScheduledTask.sendClear =>
      st.send_clear_message_to_twilio connected outcome

/-- The inbound message handler: on a start event it stores
data of start and streamSid as the stream id (a missing field raises
KeyError); on a media event with a registered consumer it decodes the
payload and invokes the consumer with the bytes (missing fields raise
KeyError, a non-string payload raises TypeError, an undecodable payload
raises binascii.Error); every other event — media without a consumer,
stop, unknown kinds — does nothing. The result pairs the new state
with the list of consumer invocations (consumer id and bytes). -/
def TwilioAudioInterface.handle_twilio_message (st : TwilioAudioInterface)
    (data : List (String × JsonValue)) :
    Except PyError (TwilioAudioInterface × List (Nat × List Nat)) :=
  match dictGet data ("event"), st.input_callback with
  | some (JsonValue.str "start"), _ =>
    match dictIndex data ("start") with
    | Except.error e => Except.error e
    | Except.ok startObj =>
      match pySubscript startObj ("streamSid") with
      | Except.error e => Except.error e
      | Except.ok sid => Except.ok ({ st with stream_sid := some sid }, [])
  | some (JsonValue.str "media"), some cb =>
    match dictIndex data ("media") with
    | Except.error e => Except.error e
    | Except.ok mediaObj =>
      match pySubscript mediaObj ("payload") with
      | Except.error e => Except.error e
      | Except.ok (JsonValue.str payload) =>
        match b64decode payload with
        | Except.error msg => Except.error (PyError.binasciiError msg)
        | Except.ok bytes => Except.ok (st, [(cb, bytes)])
      | Except.ok (JsonValue.obj _) => Except.error PyError.typeError
  | _, _ => Except.ok (st, [])

/-- The wire shape of an inbound start envelope carrying the given
stream id. -/
def startEnv (sid : JsonValue) : List (String × JsonValue) :=
  [("event", JsonValue.str ("start")),
   ("start", JsonValue.obj ([("streamSid", sid)]))]

/-- The wire shape of an inbound media envelope carrying the given
payload text. -/
def mediaEnv (payload : String) : List (String × JsonValue) :=
  [("event", JsonValue.str ("media")),
   ("media", JsonValue.obj ([("payload", JsonValue.str payload)]))]

/-- The adapter state after Scenario A's start envelope: stream id
CA123 active, no consumer registered. -/
def stA : TwilioAudioInterface :=
  { input_callback := none, stream_sid := some (JsonValue.str ("CA123")) }

/-- An adapter state with a consumer registered (id 7) and no stream
id. -/
def regState : TwilioAudioInterface :=
  { input_callback := some 7, stream_sid := none }

/-- The outbound media frame Scenario A expects: event media, stream
id CA123, payload AQI=. -/
def mediaFrameA : JsonValue :=
  JsonValue.obj
    [("event", JsonValue.str ("media")),
     ("streamSid", JsonValue.str ("CA123")),
     ("media", JsonValue.obj ([("payload", JsonValue.str ("AQI="))]))]

/-- The outbound clear frame Scenario B expects: event clear, stream
id CA123. -/
def clearFrameA : JsonValue :=
  JsonValue.obj
    [("event", JsonValue.str ("clear")), ("streamSid", JsonValue.str ("CA123"))]

theorem b64index_b64char : ∀ v : Nat, v < 64 → b64index (b64char v) = some v := by
  decide

theorem b64char_ne_pad : ∀ v : Nat, v < 64 → ¬ b64char v = '=' := by
  decide

theorem b64decodeAux_step0 (c : Char) (rest : List Char) (leftchar pads : Nat)
    (out : List Nat) (v : Nat) (hne : ¬ c = '=') (hv : b64index c = some v) :
    b64decodeAux (c :: rest) 0 leftchar pads out = b64decodeAux rest 1 v 0 out := by
  simp only [b64decodeAux, hv, if_neg hne]

theorem b64decodeAux_step1 (c : Char) (rest : List Char) (leftchar pads : Nat)
    (out : List Nat) (v : Nat) (hne : ¬ c = '=') (hv : b64index c = some v) :
    b64decodeAux (c :: rest) 1 leftchar pads out =
      b64decodeAux rest 2 (v % 16) 0 (out ++ [leftchar * 4 + v / 16]) := by
  simp only [b64decodeAux, hv, if_neg hne]

theorem b64decodeAux_step2 (c : Char) (rest : List Char) (leftchar pads : Nat)
    (out : List Nat) (v : Nat) (hne : ¬ c = '=') (hv : b64index c = some v) :
    b64decodeAux (c :: rest) 2 leftchar pads out =
      b64decodeAux rest 3 (v % 4) 0 (out ++ [leftchar * 16 + v / 4]) := by
  simp only [b64decodeAux, hv, if_neg hne]

theorem b64decodeAux_step3 (c : Char) (rest : List Char) (leftchar pads : Nat)
    (out : List Nat) (v : Nat) (hne : ¬ c = '=') (hv : b64index c = some v) :
    b64decodeAux (c :: rest) 3 leftchar pads out =
      b64decodeAux rest 0 0 0 (out ++ [leftchar * 64 + v]) := by
  simp only [b64decodeAux, hv, if_neg hne]

theorem b64decode_quad (v0 v1 v2 v3 : Nat) (h0 : v0 < 64) (h1 : v1 < 64)
    (h2 : v2 < 64) (h3 : v3 < 64) (rest : List Char) (out : List Nat) :
    b64decodeAux (b64char v0 :: b64char v1 :: b64char v2 :: b64char v3 :: rest)
        0 0 0 out =
      b64decodeAux rest 0 0 0
        (out ++ [v0 * 4 + v1 / 16, v1 % 16 * 16 + v2 / 4, v2 % 4 * 64 + v3]) := by
  rw [b64decodeAux_step0 _ _ _ _ _ _ (b64char_ne_pad v0 h0) (b64index_b64char v0 h0),
      b64decodeAux_step1 _ _ _ _ _ _ (b64char_ne_pad v1 h1) (b64index_b64char v1 h1),
      b64decodeAux_step2 _ _ _ _ _ _ (b64char_ne_pad v2 h2) (b64index_b64char v2 h2),
      b64decodeAux_step3 _ _ _ _ _ _ (b64char_ne_pad v3 h3) (b64index_b64char v3 h3)]
  simp

theorem b64decode_tail1 (v0 v1 : Nat) (h0 : v0 < 64) (h1 : v1 < 64)
    (out : List Nat) :
    b64decodeAux [b64char v0, b64char v1, '=', '='] 0 0 0 out =
      Except.ok (out ++ [v0 * 4 + v1 / 16]) := by
  rw [b64decodeAux_step0 _ _ _ _ _ _ (b64char_ne_pad v0 h0) (b64index_b64char v0 h0),
      b64decodeAux_step1 _ _ _ _ _ _ (b64char_ne_pad v1 h1) (b64index_b64char v1 h1)]
  simp [b64decodeAux]

theorem b64decode_tail2 (v0 v1 v2 : Nat) (h0 : v0 < 64) (h1 : v1 < 64)
    (h2 : v2 < 64) (out : List Nat) :
    b64decodeAux [b64char v0, b64char v1, b64char v2, '='] 0 0 0 out =
      Except.ok (out ++ [v0 * 4 + v1 / 16, v1 % 16 * 16 + v2 / 4]) := by
  rw [b64decodeAux_step0 _ _ _ _ _ _ (b64char_ne_pad v0 h0) (b64index_b64char v0 h0),
      b64decodeAux_step1 _ _ _ _ _ _ (b64char_ne_pad v1 h1) (b64index_b64char v1 h1),
      b64decodeAux_step2 _ _ _ _ _ _ (b64char_ne_pad v2 h2) (b64index_b64char v2 h2)]
  simp [b64decodeAux]

theorem b64_roundtrip_aux :
    ∀ (b acc : List Nat), (∀ x ∈ b, x < 256) →
      b64decodeAux (b64encodeBytes b) 0 0 0 acc = Except.ok (acc ++ b)
  | [], acc, _ => by simp [b64encodeBytes, b64decodeAux]
  | [b0], acc, h => by
      have hb0 : b0 < 256 := h b0 (by simp)
      show b64decodeAux [b64char (b0 / 4), b64char (b0 % 4 * 16), '=', '='] 0 0 0 acc = _
      rw [b64decode_tail1 _ _ (by omega) (by omega)]
      have e : b0 / 4 * 4 + b0 % 4 * 16 / 16 = b0 := by omega
      rw [e]
  | [b0, b1], acc, h => by
      have hb0 : b0 < 256 := h b0 (by simp)
      have hb1 : b1 < 256 := h b1 (by simp)
      show b64decodeAux [b64char (b0 / 4), b64char (b0 % 4 * 16 + b1 / 16),
        b64char (b1 % 16 * 4), '='] 0 0 0 acc = _
      rw [b64decode_tail2 _ _ _ (by omega) (by omega) (by omega)]
      have e0 : b0 / 4 * 4 + (b0 % 4 * 16 + b1 / 16) / 16 = b0 := by omega
      have e1 : (b0 % 4 * 16 + b1 / 16) % 16 * 16 + b1 % 16 * 4 / 4 = b1 := by omega
      rw [e0, e1]
  | b0 :: b1 :: b2 :: rest, acc, h => by
      have hb0 : b0 < 256 := h b0 (by simp)
      have hb1 : b1 < 256 := h b1 (by simp)
      have hb2 : b2 < 256 := h b2 (by simp)
      show b64decodeAux (b64char (b0 / 4) :: b64char (b0 % 4 * 16 + b1 / 16) ::
        b64char (b1 % 16 * 4 + b2 / 64) :: b64char (b2 % 64) ::
        b64encodeBytes rest) 0 0 0 acc = _
      rw [b64decode_quad _ _ _ _ (by omega) (by omega) (by omega) (by omega)]
      have e0 : b0 / 4 * 4 + (b0 % 4 * 16 + b1 / 16) / 16 = b0 := by omega
      have e1 : (b0 % 4 * 16 + b1 / 16) % 16 * 16 + (b1 % 16 * 4 + b2 / 64) / 4 = b1 := by
        omega
      have e2 : (b1 % 16 * 4 + b2 / 64) % 4 * 64 + b2 % 64 = b2 := by omega
      rw [e0, e1, e2,
        b64_roundtrip_aux rest (acc ++ [b0, b1, b2]) (fun x hx => h x (by simp [hx]))]
      simp

/-- C1: after processing the inbound start envelope carrying stream id
CA123, a call to output with the two bytes 1, 2 and the transport
connected produces exactly one outbound wire frame, the serialization
of the media envelope with event media, streamSid CA123 taken from the
start event, and payload AQI=, the base64 encoding of those bytes. -/
theorem scenarioA_one_media_frame :
    TwilioAudioInterface.init.handle_twilio_message
        (startEnv (JsonValue.str ("CA123"))) = Except.ok (stA, []) ∧
    stA.output ([1, 2]) = (stA, [ScheduledTask.sendAudio ([1, 2])]) ∧
    runTask stA true SendOutcome.success (ScheduledTask.sendAudio ([1, 2])) =
      Except.ok ([jsonDumps mediaFrameA]) ∧
    b64encode ([1, 2]) = "AQI=" :=
  ⟨rfl, rfl, rfl, rfl⟩

/-- C7: after Scenario A's state (stream id CA123 active, transport
connected), a call to interrupt produces exactly one outbound wire
frame, the serialization of the clear envelope with event clear and
streamSid CA123. -/
theorem scenarioB_one_clear_frame :
    stA.interrupt = (stA, [ScheduledTask.sendClear]) ∧
    runTask stA true SendOutcome.success ScheduledTask.sendClear =
      Except.ok ([jsonDumps clearFrameA]) :=
  ⟨rfl, rfl⟩

/-- C5: when no start envelope has been processed (the stored stream id
is absent), the scheduled audio send task produces zero wire frames for
every byte sequence, whatever the connection state or send outcome. -/
theorem no_stream_no_send (st : TwilioAudioInterface) (connected : Bool)
    (outcome : SendOutcome) (audio : List Nat) (h : st.stream_sid = none) :
    st.send_audio_to_twilio connected outcome audio = Except.ok [] := by
  unfold TwilioAudioInterface.send_audio_to_twilio
  rw [h]

/-- Witness for C5 at the freshly constructed adapter. -/
theorem no_stream_no_send_witness :
    TwilioAudioInterface.init.send_audio_to_twilio true SendOutcome.success
      ([1, 2, 3]) = Except.ok [] :=
  no_stream_no_send TwilioAudioInterface.init true SendOutcome.success
    ([1, 2, 3]) rfl

/-- C8: decoding the encoding of any byte sequence yields the sequence
back; the encoder itself is a total function on bytes. -/
theorem b64_roundtrip (b : List Nat) (h : ∀ x ∈ b, x < 256) :
    b64decode (b64encode b) = Except.ok b :=
  b64_roundtrip_aux b [] h

/-- Witness for C8 at a concrete byte sequence. -/
theorem b64_roundtrip_witness :
    b64decode (b64encode ([0, 1, 2, 255, 254, 77, 0])) =
      Except.ok ([0, 1, 2, 255, 254, 77, 0]) :=
  b64_roundtrip ([0, 1, 2, 255, 254, 77, 0]) (by decide)

/-- C2: a media envelope processed before any consumer is registered
produces zero callback invocations; after registration via start, the
identical well-formed media envelope invokes the registered consumer
exactly once with the base64-decoded payload bytes. -/
theorem consumer_gating (st : TwilioAudioInterface) (cb : Nat)
    (data : List (String × JsonValue)) (payload : String) (bytes : List Nat)
    (hcb : st.input_callback = none)
    (hev : dictGet data ("event") = some (JsonValue.str ("media")))
    (hdec : b64decode payload = Except.ok bytes) :
    st.handle_twilio_message data = Except.ok (st, []) ∧
    (st.start cb).handle_twilio_message (mediaEnv payload) =
      Except.ok (st.start cb, [(cb, bytes)]) := by
  constructor
  · unfold TwilioAudioInterface.handle_twilio_message
    rw [hev, hcb]
    rfl
  · have h1 : (st.start cb).handle_twilio_message (mediaEnv payload) =
        (match b64decode payload with
         | Except.error msg => Except.error (PyError.binasciiError msg)
         | Except.ok bs => Except.ok (st.start cb, [(cb, bs)])) := rfl
    rw [h1, hdec]

/-- Witness for C2: before registration the AQI= media envelope invokes
nothing; after registering consumer 7 it is invoked once with the bytes
1, 2. -/
theorem consumer_gating_witness :
    TwilioAudioInterface.init.handle_twilio_message (mediaEnv ("AQI=")) =
      Except.ok (TwilioAudioInterface.init, []) ∧
    (TwilioAudioInterface.init.start 7).handle_twilio_message
        (mediaEnv ("AQI=")) =
      Except.ok (TwilioAudioInterface.init.start 7, [(7, [1, 2])]) :=
  consumer_gating TwilioAudioInterface.init 7 (mediaEnv ("AQI=")) ("AQI=")
    ([1, 2]) rfl rfl rfl

/-- C3 counterexample: with a consumer registered, a media envelope
whose payload is the text not-valid-base64! makes the inbound handler
raise the binascii incorrect-padding error instead of dropping the
frame, contradicting the no-crash policy the claim states. -/
theorem media_bad_base64_raises :
    regState.handle_twilio_message (mediaEnv ("not-valid-base64!")) =
      Except.error (PyError.binasciiError ("Incorrect padding")) := rfl

/-- C3 amended: the inbound handler wraps nothing in a try block: a
media envelope with an undecodable payload raises the decode error as a
binascii error (and the consumer is not invoked), and a start envelope
missing its start object raises a KeyError; both exceptions propagate
to the handler's caller instead of being logged and skipped. -/
theorem inbound_malformed_raises (cb : Nat) (sid : Option JsonValue)
    (payload msg : String)
    (hdec : b64decode payload = Except.error msg) :
    TwilioAudioInterface.handle_twilio_message
        { input_callback := some cb, stream_sid := sid } (mediaEnv payload) =
      Except.error (PyError.binasciiError msg) ∧
    TwilioAudioInterface.handle_twilio_message
        { input_callback := some cb, stream_sid := sid }
        ([("event", JsonValue.str ("start"))]) =
      Except.error (PyError.keyError ("start")) := by
  constructor
  · have h1 : TwilioAudioInterface.handle_twilio_message
        { input_callback := some cb, stream_sid := sid } (mediaEnv payload) =
        (match b64decode payload with
         | Except.error m => Except.error (PyError.binasciiError m)
         | Except.ok bs => Except.ok
             (({ input_callback := some cb, stream_sid := sid } :
               TwilioAudioInterface), [(cb, bs)])) := rfl
    rw [h1, hdec]
  · rfl

/-- Witness for C3's amended statement at the concrete payload
not-valid-base64!. -/
theorem inbound_malformed_raises_witness :
    TwilioAudioInterface.handle_twilio_message
        { input_callback := some 7, stream_sid := none }
        (mediaEnv ("not-valid-base64!")) =
      Except.error (PyError.binasciiError ("Incorrect padding")) ∧
    TwilioAudioInterface.handle_twilio_message
        { input_callback := some 7, stream_sid := none }
        ([("event", JsonValue.str ("start"))]) =
      Except.error (PyError.keyError ("start")) :=
  inbound_malformed_raises 7 none ("not-valid-base64!") ("Incorrect padding") rfl

/-- C6: the stop method clears both the stream id and the registered
consumer; afterwards the audio and clear send tasks produce zero wire
frames whatever the connection state or outcome, a media envelope
invokes no consumer, and only a subsequent start envelope
re-establishes a stream id. -/
theorem stop_clears_session (st : TwilioAudioInterface) (connected : Bool)
    (outcome : SendOutcome) (audio : List Nat) (sid : JsonValue)
    (data : List (String × JsonValue))
    (hmedia : dictGet data ("event") = some (JsonValue.str ("media"))) :
    st.stop.input_callback = none ∧
    st.stop.stream_sid = none ∧
    st.stop.send_audio_to_twilio connected outcome audio = Except.ok [] ∧
    st.stop.send_clear_message_to_twilio connected outcome = Except.ok [] ∧
    st.stop.handle_twilio_message data = Except.ok (st.stop, []) ∧
    st.stop.handle_twilio_message (startEnv sid) =
      Except.ok ({ input_callback := none, stream_sid := some sid }, []) := by
  refine ⟨rfl, rfl, rfl, rfl, ?_, rfl⟩
  unfold TwilioAudioInterface.handle_twilio_message
  rw [hmedia]
  rfl

/-- Witness for C6 with Scenario A's state, a connected transport and a
concrete media envelope. -/
theorem stop_clears_session_witness :
    stA.stop.input_callback = none ∧
    stA.stop.stream_sid = none ∧
    stA.stop.send_audio_to_twilio true SendOutcome.success ([1, 2]) =
      Except.ok [] ∧
    stA.stop.send_clear_message_to_twilio true SendOutcome.success =
      Except.ok [] ∧
    stA.stop.handle_twilio_message (mediaEnv ("AQI=")) =
      Except.ok (stA.stop, []) ∧
    stA.stop.handle_twilio_message (startEnv (JsonValue.str ("CA999"))) =
      Except.ok ({ input_callback := none,
                   stream_sid := some (JsonValue.str ("CA999")) }, []) :=
  stop_clears_session stA true SendOutcome.success ([1, 2])
    (JsonValue.str ("CA999")) (mediaEnv ("AQI=")) rfl

/-- C10: an inbound envelope whose event kind is neither start nor
media — a stop envelope included — leaves the adapter state entirely
unchanged and invokes no consumer; clearing the session is done only by
the explicit stop method. -/
theorem unknown_event_no_effect (st : TwilioAudioInterface)
    (data : List (String × JsonValue))
    (hstart : dictGet data ("event") ≠ some (JsonValue.str ("start")))
    (hmedia : dictGet data ("event") ≠ some (JsonValue.str ("media"))) :
    st.handle_twilio_message data = Except.ok (st, []) ∧
    st.stop.input_callback = none ∧ st.stop.stream_sid = none := by
  refine ⟨?_, rfl, rfl⟩
  rcases hdg : dictGet data ("event") with _ | v
  · unfold TwilioAudioInterface.handle_twilio_message
    rw [hdg]
  · rcases v with s | kvs
    · rw [hdg] at hstart hmedia
      unfold TwilioAudioInterface.handle_twilio_message
      rw [hdg]
      split
      · rename_i heq
        exact absurd heq hstart
      · rename_i heq _
        exact absurd heq hmedia
      · rfl
    · unfold TwilioAudioInterface.handle_twilio_message
      rw [hdg]

/-- Witness for C10 at an inbound stop envelope arriving in Scenario
A's state. -/
theorem unknown_event_no_effect_witness :
    stA.handle_twilio_message ([("event", JsonValue.str ("stop"))]) =
      Except.ok (stA, []) ∧
    stA.stop.input_callback = none ∧ stA.stop.stream_sid = none :=
  unknown_event_no_effect stA ([("event", JsonValue.str ("stop"))])
    (by intro h; simp [dictGet] at h) (by intro h; simp [dictGet] at h)

theorem send_audio_never_raises (st : TwilioAudioInterface) (connected : Bool)
    (outcome : SendOutcome) (audio : List Nat) :
    ∃ frames, st.send_audio_to_twilio connected outcome audio =
      Except.ok frames := by
  unfold TwilioAudioInterface.send_audio_to_twilio
  rcases st with ⟨icb, _ | sid⟩
  · exact ⟨[], rfl⟩
  · by_cases ht : sid.truthy = true <;> cases connected <;> cases outcome <;>
      simp [ht, websocket_send_text]

theorem send_clear_ok_cases (st : TwilioAudioInterface) (connected : Bool)
    (outcome : SendOutcome) (h : ¬ outcome = SendOutcome.otherFault) :
    ∃ frames, st.send_clear_message_to_twilio connected outcome =
      Except.ok frames := by
  unfold TwilioAudioInterface.send_clear_message_to_twilio
  rcases st with ⟨icb, _ | sid⟩
  · exact ⟨[], rfl⟩
  · by_cases ht : sid.truthy = true <;> cases connected <;> cases outcome <;>
      first
        | exact absurd rfl h
        | simp [ht, websocket_send_text]

theorem disconnected_no_send (st : TwilioAudioInterface)
    (outcome : SendOutcome) (audio : List Nat) :
    st.send_audio_to_twilio false outcome audio = Except.ok [] ∧
    st.send_clear_message_to_twilio false outcome = Except.ok [] := by
  unfold TwilioAudioInterface.send_audio_to_twilio
    TwilioAudioInterface.send_clear_message_to_twilio
  rcases st with ⟨icb, _ | sid⟩
  · exact ⟨rfl, rfl⟩
  · by_cases ht : sid.truthy = true <;> simp [ht]

theorem clear_fault_propagates_gen (st : TwilioAudioInterface)
    (h : st.sidTruthy = true) :
    st.send_clear_message_to_twilio true SendOutcome.otherFault =
      Except.error PyError.otherFault := by
  unfold TwilioAudioInterface.sidTruthy at h
  unfold TwilioAudioInterface.send_clear_message_to_twilio
  rcases st with ⟨icb, _ | sid⟩
  · simp at h
  · simp only [] at h
    simp [h, websocket_send_text]

/-- C4 counterexample: in Scenario A's state with the transport
connected, a fault other than a disconnect or runtime error raised by
the clear send leaves the clear task as an uncaught error — the task
does not catch every failure as the claim states. -/
theorem clear_task_fault_escapes :
    stA.send_clear_message_to_twilio true SendOutcome.otherFault =
      Except.error PyError.otherFault := rfl

/-- C4 amended: a not-connected transport means zero wire sends for
both tasks; the audio send task catches every failure class raised
during its send attempt; the clear send task catches only disconnects
and runtime errors — any other unexpected fault propagates out of the
clear task uncaught (though the caller of interrupt, having already
regained control, never observes it). -/
theorem outbound_task_error_policy (st : TwilioAudioInterface)
    (connected : Bool) (outcome : SendOutcome) (audio : List Nat) :
    (∃ frames, st.send_audio_to_twilio connected outcome audio =
      Except.ok frames) ∧
    (st.send_audio_to_twilio false outcome audio = Except.ok [] ∧
     st.send_clear_message_to_twilio false outcome = Except.ok []) ∧
    (outcome ≠ SendOutcome.otherFault →
      ∃ frames, st.send_clear_message_to_twilio connected outcome =
        Except.ok frames) ∧
    (st.sidTruthy = true →
      st.send_clear_message_to_twilio true SendOutcome.otherFault =
        Except.error PyError.otherFault) :=
  ⟨send_audio_never_raises st connected outcome audio,
   disconnected_no_send st outcome audio,
   fun h => send_clear_ok_cases st connected outcome h,
   fun h => clear_fault_propagates_gen st h⟩

/-- Witness for C4's amended statement in Scenario A's state: the audio
task swallows an unexpected fault, the disconnected clear task sends
nothing, the successful connected clear task raises nothing, and the
faulting connected clear task propagates the fault. -/
theorem outbound_task_error_policy_witness :
    (∃ frames, stA.send_audio_to_twilio true SendOutcome.otherFault ([1, 2]) =
      Except.ok frames) ∧
    stA.send_clear_message_to_twilio false SendOutcome.otherFault =
      Except.ok [] ∧
    (∃ frames, stA.send_clear_message_to_twilio true SendOutcome.success =
      Except.ok frames) ∧
    stA.send_clear_message_to_twilio true SendOutcome.otherFault =
      Except.error PyError.otherFault :=
  ⟨(outbound_task_error_policy stA true SendOutcome.otherFault ([1, 2])).1,
   (outbound_task_error_policy stA true SendOutcome.otherFault ([1, 2])).2.1.2,
   (outbound_task_error_policy stA true SendOutcome.success ([1, 2])).2.2.1
     (by decide),
   (outbound_task_error_policy stA true SendOutcome.otherFault ([1, 2])).2.2.2
     rfl⟩
